import Mathlib

/-!
Verification of the reset-password route module
(`app/routes/_auth+/reset-password.tsx`): the verification-result handler
`handleVerification`, the route `loader`, and the route `action`, embedded
as pure Lean functions.  Stateful collaborator calls are recorded in an
explicit effect trace; thrown JavaScript errors become the `Except.error`
branch.
-/

namespace WebAuth

/-- An account record as selected by the handler's lookup
(`select: { email: true, username: true }`). -/
structure User where
  email : String
  username : String
deriving DecidableEq

/-- A session is a key-value store persisted in a cookie. -/
abbrev Session := List (String × String)

/-- Modelled from the spec: the session-storage collaborator
(`~/utils/verification.server.ts`, not under `src/`) serializes a session
into a cookie-header value; the model keeps the committed payload in
parsed form, so a committed cookie is the key-value store it encodes. -/
abbrev Cookie := List (String × String)

/-- `const resetPasswordUsernameSessionKey = 'resetPasswordUsername'`. -/
def resetPasswordUsernameSessionKey : String := "resetPasswordUsername"

/-- Key-value update: set `k` to `v`, replacing any previous binding of `k`
and leaving other keys untouched (JavaScript property assignment and
remix `session.set`). -/
def setKey (s : List (String × String)) (k v : String) : List (String × String) :=
  (k, v) :: s.filter (fun p => p.1 != k)

/-- Modelled from the spec: `verifySessionStorage.getSession` parses a
session from the cookie header, returning an empty/new session if the
header is absent. -/
def getSession (cookieHeader : Option Cookie) : Session :=
  cookieHeader.getD []

/-- Modelled from the spec: `verifySessionStorage.commitSession`
serializes the session into a cookie-header value, preserving the keys it
parsed. -/
def commitSession (s : Session) : Cookie := s

/-- The validated value of a verified submission. -/
structure SubmissionValue where
  target : String
deriving DecidableEq

/-- A verified submission: an optional validated value and an error map. -/
structure Submission where
  value : Option SubmissionValue
  error : List (String × String)
deriving DecidableEq

/-- The outcome returned by the handler: either a `json(data, init)`
response or a `redirect(location, init)` response. -/
inductive Outcome where
  | json (httpStatus : Nat) (bodyStatus : String) (submission : Submission)
  | redirect (location : String) (headers : List (String × Cookie))
deriving DecidableEq

/-- Collaborator calls performed by the handler, in order. -/
inductive Effect where
  | dbFindFirst (target : String)
  | sessionGet (cookieHeader : Option Cookie)
  | sessionSetKey (key value : String)
  | sessionCommit
deriving DecidableEq

/-- The row predicate of the lookup:
`where: { OR: [{ email: target }, { username: target }] }`. -/
def userMatches (target : String) (u : User) : Bool :=
  u.email == target || u.username == target

/-- The message of the `invariant` assertion at the top of the handler. -/
def invariantMsg : String := "submission.value should be defined by now"

/-- `handleVerification({ request, submission })`, embedded over an
explicit account store `db` (the `prisma.user` table) and the request's
cookie header.  The thrown `invariant` error is the `Except.error` branch;
the returned outcome is paired with the trace of collaborator calls. -/
def handleVerification (db : List User) (submission : Submission)
    (cookieHeader : Option Cookie) : Except String (Outcome × List Effect) :=
  match submission.value with
  | none => .error invariantMsg
  | some v =>
    let target := v.target
    match db.find? (userMatches target) with
    | none =>
      let submission :=
        { submission with error := setKey submission.error "code" "Invalid code" }
      .ok (.json 400 "error" submission, [.dbFindFirst target])
    | some user =>
      let verifySession := getSession cookieHeader
      let verifySession :=
        setKey verifySession resetPasswordUsernameSessionKey user.username
      .ok (.redirect "/reset-password"
            [("set-cookie", commitSession verifySession)],
        [.dbFindFirst target, .sessionGet cookieHeader,
         .sessionSetKey resetPasswordUsernameSessionKey user.username,
         .sessionCommit])

/-- The `set-cookie` response header of an outcome, when present. -/
def Outcome.setCookieHeader : Outcome → Option Cookie
  | .json _ _ _ => none
  | .redirect _ headers => (headers.find? (fun h => h.1 == "set-cookie")).map (fun h => h.2)

/-- Whether a handler result commits a session cookie carrying the
`resetPasswordUsername` key. -/
def commitsResetSession (r : Except String (Outcome × List Effect)) : Bool :=
  match r with
  | .ok (o, _) =>
    match o.setCookieHeader with
    | some ck => (ck.lookup resetPasswordUsernameSessionKey).isSome
    | none => false
  | .error _ => false

/-- Whether an effect is a session-storage operation. -/
def Effect.isSessionOp : Effect → Bool
  | .sessionGet _ => true
  | .sessionSetKey _ _ => true
  | .sessionCommit => true
  | .dbFindFirst _ => false

/-- The error code recorded on the submission of a 4xx json result. -/
def errorCodeOf (r : Except String (Outcome × List Effect)) : Option String :=
  match r with
  | .ok (.json _ _ s, _) => s.error.lookup "code"
  | _ => none

/-- The HTTP status of a handler result: the explicit status of a json
response, 302 for a redirect, none when an error was thrown. -/
def responseStatusOf (r : Except String (Outcome × List Effect)) : Option Nat :=
  match r with
  | .ok (.json st _ _, _) => some st
  | .ok (.redirect _ _, _) => some 302
  | .error _ => none

/-- The `DataFunctionArgs` a remix data function receives: the request,
reduced to the state this route could read from it. -/
structure DataFunctionArgs where
  cookieHeader : Option Cookie
deriving DecidableEq

/-- The loader's json body. -/
structure LoaderData where
  resetPasswordUsername : String
deriving DecidableEq

/-- `export async function loader()`: ignores its arguments and returns
`json({ resetPasswordUsername: 'get this from the session' })`. -/
def loader (_args : DataFunctionArgs) : Nat × LoaderData :=
  (200, ⟨"get this from the session"⟩)

/-- The reset-password form data: the conform intent field and the two
password fields, each possibly absent. -/
structure ResetFormData where
  intent : String
  password : Option String
  confirmPassword : Option String
deriving DecidableEq

/-- The validated value of a reset-password submission. -/
structure ResetValue where
  password : String
  confirmPassword : String
deriving DecidableEq

/-- A parsed reset-password submission. -/
structure ActionSubmission where
  intent : String
  value : Option ResetValue
deriving DecidableEq

/-- `parse(formData, { schema: ResetPasswordSchema, ... })`, embedded over
an abstract `passwordOk` predicate standing for `passwordSchema`
(`~/utils/user-validation.ts`, not under `src/`): the value is defined
exactly when both password fields are present, each satisfies the password
schema, and the two are equal (the schema's `refine`). -/
def parseReset (passwordOk : String → Bool) (fd : ResetFormData) : ActionSubmission :=
  { intent := fd.intent,
    value :=
      match fd.password, fd.confirmPassword with
      | some p, some c =>
        if passwordOk p && passwordOk c && p == c then some ⟨p, c⟩ else none
      | _, _ => none }

/-- `!submission.value?.password`: true when the value is absent or the
validated password is the empty string (JavaScript falsiness). -/
def passwordMissing (s : ActionSubmission) : Bool :=
  match s.value with
  | some v => v.password == ""
  | none => true

/-- A json response of the action: HTTP status, body status, submission. -/
structure ActionResponse where
  httpStatus : Nat
  bodyStatus : String
  submission : ActionSubmission
deriving DecidableEq

/-- `export async function action({ request })`, embedded over the parsed
form data.  The final `throw new Error(...)` is the `Except.error`
branch; the json results carry the trace of collaborator calls (the
action calls no collaborator). -/
def action (passwordOk : String → Bool) (fd : ResetFormData) :
    Except String (ActionResponse × List Effect) :=
  let submission := parseReset passwordOk fd
  if submission.intent != "submit" then
    .ok (⟨200, "idle", submission⟩, [])
  else if passwordMissing submission then
    .ok (⟨400, "error", submission⟩, [])
  else
    .error "This has not yet been implemented"

/-! ### Helper lemmas on key-value stores and lookups -/

theorem lookup_setKey_self (s : List (String × String)) (k v : String) :
    (setKey s k v).lookup k = some v := by
  simp [setKey, List.lookup]

theorem lookup_filter_ne (s : List (String × String)) (k₁ k₂ : String)
    (h : k₂ ≠ k₁) :
    (s.filter (fun p => p.1 != k₁)).lookup k₂ = s.lookup k₂ := by
  induction s with
  | nil => rfl
  | cons a t ih =>
    by_cases ha : a.1 = k₁
    · have hk : (k₂ == k₁) = false := by simp [h]
      simp [List.filter, List.lookup, ha, hk, ih]
    · simp only [List.filter, List.lookup]
      have hne : (a.1 != k₁) = true := by simp [ha]
      rw [hne]
      by_cases hk : k₂ = a.1
      · simp [List.lookup, hk]
      · have hkf : (k₂ == a.1) = false := by simp [hk]
        simp [List.lookup, hkf, ih]

theorem lookup_setKey_ne (s : List (String × String)) (k₁ k₂ v : String)
    (h : k₂ ≠ k₁) :
    (setKey s k₁ v).lookup k₂ = s.lookup k₂ := by
  have hkf : (k₂ == k₁) = false := by simp [h]
  simp only [setKey, List.lookup, hkf]
  exact lookup_filter_ne s k₁ k₂ h

theorem find?_of_unique {α : Type} (p : α → Bool) (l : List α) (u : α)
    (hmem : u ∈ l) (hu : p u = true) (huniq : l.countP p = 1) :
    l.find? p = some u := by
  induction l with
  | nil => cases hmem
  | cons a t ih =>
    by_cases hpa : p a = true
    · rw [List.find?_cons_of_pos _ hpa]
      have hcc : (a :: t).countP p = t.countP p + 1 :=
        List.countP_cons_of_pos p t hpa
      rw [huniq] at hcc
      have hct : t.countP p = 0 := by omega
      rcases List.mem_cons.mp hmem with h | h
      · rw [h]
      · exact absurd hu ((List.countP_eq_zero.mp hct) u h)
    · rw [List.find?_cons_of_neg _ hpa]
      have hcc : (a :: t).countP p = t.countP p :=
        List.countP_cons_of_neg p t (by simpa using hpa)
      rw [huniq] at hcc
      have hmt : u ∈ t := by
        rcases List.mem_cons.mp hmem with h | h
        · exact absurd (h ▸ hu) hpa
        · exact h
      exact ih hmt hcc.symm

/-- The cookie committed on the success path: the parsed incoming session
with `resetPasswordUsername` set to the account's username. -/
def committedResetCookie (cookieHeader : Option Cookie) (username : String) : Cookie :=
  commitSession (setKey (getSession cookieHeader) resetPasswordUsernameSessionKey username)

/-! ### Unfolding lemmas for the two resolved branches of the handler -/

theorem handleVerification_eq_notFound (db : List User) (submission : Submission)
    (cookieHeader : Option Cookie) (v : SubmissionValue)
    (hv : submission.value = some v)
    (hfind : db.find? (userMatches v.target) = none) :
    handleVerification db submission cookieHeader =
      .ok (.json 400 "error"
          { submission with error := setKey submission.error "code" "Invalid code" },
        [.dbFindFirst v.target]) := by
  simp [handleVerification, hv, hfind]

theorem handleVerification_eq_found (db : List User) (submission : Submission)
    (cookieHeader : Option Cookie) (v : SubmissionValue) (u : User)
    (hv : submission.value = some v)
    (hfind : db.find? (userMatches v.target) = some u) :
    handleVerification db submission cookieHeader =
      .ok (.redirect "/reset-password"
            [("set-cookie", committedResetCookie cookieHeader u.username)],
        [.dbFindFirst v.target, .sessionGet cookieHeader,
         .sessionSetKey resetPasswordUsernameSessionKey u.username,
         .sessionCommit]) := by
  simp [handleVerification, hv, hfind, committedResetCookie]

theorem lookup_committedResetCookie_self (cookieHeader : Option Cookie)
    (username : String) :
    (committedResetCookie cookieHeader username).lookup
      resetPasswordUsernameSessionKey = some username :=
  lookup_setKey_self _ _ _

/-! ### Claim theorems -/

/-- C1: for every verified submission whose target matches exactly one
account in the store (by email or by username), `handleVerification`
returns a redirect to `/reset-password` carrying a `set-cookie` header,
and the committed session, when parsed, maps `resetPasswordUsername` to
that account's username. -/
theorem handleVerification_unique_match_redirect
    (db : List User) (submission : Submission) (cookieHeader : Option Cookie)
    (v : SubmissionValue) (u : User)
    (hv : submission.value = some v)
    (hmem : u ∈ db) (hmatch : userMatches v.target u = true)
    (huniq : db.countP (userMatches v.target) = 1) :
    handleVerification db submission cookieHeader =
      .ok (.redirect "/reset-password"
            [("set-cookie", committedResetCookie cookieHeader u.username)],
        [.dbFindFirst v.target, .sessionGet cookieHeader,
         .sessionSetKey resetPasswordUsernameSessionKey u.username,
         .sessionCommit]) ∧
    (committedResetCookie cookieHeader u.username).lookup
      resetPasswordUsernameSessionKey = some u.username := by
  have hfind := find?_of_unique (userMatches v.target) db u hmem hmatch huniq
  exact ⟨handleVerification_eq_found db submission cookieHeader v u hv hfind,
    lookup_committedResetCookie_self cookieHeader u.username⟩

/-- C1 witness: Scenario A, target `"alice@example.com"` against a store
holding `{username: "alice", email: "alice@example.com"}`. -/
theorem handleVerification_unique_match_redirect_witness :
    handleVerification [⟨"alice@example.com", "alice"⟩]
        ⟨some ⟨"alice@example.com"⟩, []⟩ none =
      .ok (.redirect "/reset-password"
            [("set-cookie", committedResetCookie none "alice")],
        [.dbFindFirst "alice@example.com", .sessionGet none,
         .sessionSetKey resetPasswordUsernameSessionKey "alice",
         .sessionCommit]) ∧
    (committedResetCookie none "alice").lookup
      resetPasswordUsernameSessionKey = some "alice" :=
  handleVerification_unique_match_redirect
    [⟨"alice@example.com", "alice"⟩] ⟨some ⟨"alice@example.com"⟩, []⟩ none
    ⟨"alice@example.com"⟩ ⟨"alice@example.com", "alice"⟩ rfl
    (by decide) (by decide) (by decide)

/-- C2: for every verified submission whose target matches no account by
email or username, `handleVerification` returns HTTP status 400 with body
status `"error"`, the submission's error map bound at `"code"` to the
generic `"Invalid code"`, and no `set-cookie` header. -/
theorem handleVerification_unresolved_generic_error
    (db : List User) (submission : Submission) (cookieHeader : Option Cookie)
    (v : SubmissionValue)
    (hv : submission.value = some v)
    (hnone : ∀ u ∈ db, userMatches v.target u = false) :
    handleVerification db submission cookieHeader =
      .ok (.json 400 "error"
          { submission with error := setKey submission.error "code" "Invalid code" },
        [.dbFindFirst v.target]) ∧
    (setKey submission.error "code" "Invalid code").lookup "code" =
      some "Invalid code" ∧
    (Outcome.json 400 "error"
        { submission with
          error := setKey submission.error "code" "Invalid code" }).setCookieHeader =
      none := by
  have hfind : db.find? (userMatches v.target) = none :=
    List.find?_eq_none.mpr (fun u hu => by simp [hnone u hu])
  exact ⟨handleVerification_eq_notFound db submission cookieHeader v hv hfind,
    lookup_setKey_self _ _ _, rfl⟩

/-- C2 witness: Scenario B, target `"ghost@example.com"` against a store
holding only alice. -/
theorem handleVerification_unresolved_generic_error_witness :
    handleVerification [⟨"alice@example.com", "alice"⟩]
        ⟨some ⟨"ghost@example.com"⟩, []⟩ none =
      .ok (.json 400 "error"
          ⟨some ⟨"ghost@example.com"⟩, setKey [] "code" "Invalid code"⟩,
        [.dbFindFirst "ghost@example.com"]) ∧
    (setKey [] "code" "Invalid code").lookup "code" = some "Invalid code" ∧
    (Outcome.json 400 "error"
        ⟨some ⟨"ghost@example.com"⟩,
          setKey [] "code" "Invalid code"⟩).setCookieHeader = none :=
  handleVerification_unresolved_generic_error
    [⟨"alice@example.com", "alice"⟩] ⟨some ⟨"ghost@example.com"⟩, []⟩ none
    ⟨"ghost@example.com"⟩ rfl (by decide)

/-- C3: invariant — a session cookie carrying `resetPasswordUsername` is
committed if and only if the target resolved to an account; when it does
not resolve, the result is the 400 json outcome, carries no `set-cookie`
header, and the effect trace contains no session-storage operation. -/
theorem handleVerification_session_iff_resolved
    (db : List User) (submission : Submission) (cookieHeader : Option Cookie)
    (v : SubmissionValue)
    (hv : submission.value = some v) :
    commitsResetSession (handleVerification db submission cookieHeader) =
      (db.find? (userMatches v.target)).isSome ∧
    (db.find? (userMatches v.target) = none →
      handleVerification db submission cookieHeader =
        .ok (.json 400 "error"
            { submission with error := setKey submission.error "code" "Invalid code" },
          [.dbFindFirst v.target]) ∧
      (Outcome.json 400 "error"
          { submission with
            error := setKey submission.error "code" "Invalid code" }).setCookieHeader =
        none ∧
      ∀ e ∈ [Effect.dbFindFirst v.target], e.isSessionOp = false) := by
  cases hfind : db.find? (userMatches v.target) with
  | none =>
    rw [handleVerification_eq_notFound db submission cookieHeader v hv hfind]
    refine ⟨rfl, fun _ => ⟨rfl, rfl, ?_⟩⟩
    intro e he
    rw [List.mem_singleton.mp he]
    rfl
  | some u =>
    rw [handleVerification_eq_found db submission cookieHeader v u hv hfind]
    refine ⟨?_, fun h => nomatch h⟩
    simp [commitsResetSession, Outcome.setCookieHeader,
      lookup_committedResetCookie_self]

/-- C3 witness: the session-iff-resolved invariant evaluated both at a
resolving target (`"alice"`) and at an unresolved one (`"ghost"`). -/
theorem handleVerification_session_iff_resolved_witness :
    commitsResetSession (handleVerification [⟨"alice@example.com", "alice"⟩]
        ⟨some ⟨"alice"⟩, []⟩ none) =
      (([⟨"alice@example.com", "alice"⟩] : List User).find?
        (userMatches "alice")).isSome ∧
    commitsResetSession (handleVerification [⟨"alice@example.com", "alice"⟩]
        ⟨some ⟨"ghost"⟩, []⟩ none) =
      (([⟨"alice@example.com", "alice"⟩] : List User).find?
        (userMatches "ghost")).isSome :=
  ⟨(handleVerification_session_iff_resolved
      [⟨"alice@example.com", "alice"⟩] ⟨some ⟨"alice"⟩, []⟩ none ⟨"alice"⟩ rfl).1,
   (handleVerification_session_iff_resolved
      [⟨"alice@example.com", "alice"⟩] ⟨some ⟨"ghost"⟩, []⟩ none ⟨"ghost"⟩ rfl).1⟩

/-- C4: when the submission's validated value is absent, the handler
halts with the `invariant` assertion failure — an `Except.error`,
independent of the account store and cookie, hence before any lookup or
session work — and never an ordinary returned outcome. -/
theorem handleVerification_missing_value_fatal
    (db : List User) (submission : Submission) (cookieHeader : Option Cookie)
    (hv : submission.value = none) :
    handleVerification db submission cookieHeader = .error invariantMsg ∧
    ∀ r, handleVerification db submission cookieHeader ≠ .ok r := by
  have h : handleVerification db submission cookieHeader = .error invariantMsg := by
    simp [handleVerification, hv]
  exact ⟨h, fun r hr => by rw [h] at hr; cases hr⟩

/-- C4 witness: a submission with no value halts with the invariant
message, whatever the store holds. -/
theorem handleVerification_missing_value_fatal_witness :
    handleVerification [⟨"alice@example.com", "alice"⟩] ⟨none, []⟩ none =
      .error invariantMsg :=
  (handleVerification_missing_value_fatal
    [⟨"alice@example.com", "alice"⟩] ⟨none, []⟩ none rfl).1

/-- C5: frame condition — on the error path the result differs from the
input only in the submission's error map, the trace is the single
read-only lookup and no cookie is set; on the success path the trace is
the lookup plus the three session operations, the response carries
exactly one `set-cookie` header, and no effect mutates the account
store. -/
theorem handleVerification_frame_condition
    (db : List User) (submission : Submission) (cookieHeader : Option Cookie)
    (v : SubmissionValue)
    (hv : submission.value = some v) :
    (db.find? (userMatches v.target) = none →
      handleVerification db submission cookieHeader =
        .ok (.json 400 "error"
            ⟨submission.value, setKey submission.error "code" "Invalid code"⟩,
          [.dbFindFirst v.target]) ∧
      (Outcome.json 400 "error"
          ⟨submission.value,
            setKey submission.error "code" "Invalid code"⟩).setCookieHeader = none) ∧
    (∀ u, db.find? (userMatches v.target) = some u →
      handleVerification db submission cookieHeader =
        .ok (.redirect "/reset-password"
              [("set-cookie", committedResetCookie cookieHeader u.username)],
          [.dbFindFirst v.target, .sessionGet cookieHeader,
           .sessionSetKey resetPasswordUsernameSessionKey u.username,
           .sessionCommit]) ∧
      (Outcome.redirect "/reset-password"
          [("set-cookie", committedResetCookie cookieHeader u.username)]).setCookieHeader =
        some (committedResetCookie cookieHeader u.username)) := by
  constructor
  · intro hfind
    refine ⟨?_, rfl⟩
    have h := handleVerification_eq_notFound db submission cookieHeader v hv hfind
    rw [h]
  · intro u hfind
    refine ⟨handleVerification_eq_found db submission cookieHeader v u hv hfind, ?_⟩
    simp [Outcome.setCookieHeader]

/-- C5 witness: the error-path frame at the unresolved target `"ghost"`
and the success-path frame at the resolved target `"alice"`. -/
theorem handleVerification_frame_condition_witness :
    handleVerification [⟨"alice@example.com", "alice"⟩]
        ⟨some ⟨"ghost"⟩, [("other", "x")]⟩ none =
      .ok (.json 400 "error"
          ⟨some ⟨"ghost"⟩, setKey [("other", "x")] "code" "Invalid code"⟩,
        [.dbFindFirst "ghost"]) ∧
    handleVerification [⟨"alice@example.com", "alice"⟩]
        ⟨some ⟨"alice"⟩, []⟩ none =
      .ok (.redirect "/reset-password"
            [("set-cookie", committedResetCookie none "alice")],
        [.dbFindFirst "alice", .sessionGet none,
         .sessionSetKey resetPasswordUsernameSessionKey "alice",
         .sessionCommit]) :=
  ⟨((handleVerification_frame_condition [⟨"alice@example.com", "alice"⟩]
      ⟨some ⟨"ghost"⟩, [("other", "x")]⟩ none ⟨"ghost"⟩ rfl).1 (by decide)).1,
   ((handleVerification_frame_condition [⟨"alice@example.com", "alice"⟩]
      ⟨some ⟨"alice"⟩, []⟩ none ⟨"alice"⟩ rfl).2
      ⟨"alice@example.com", "alice"⟩ (by decide)).1⟩

/-- C6: session isolation — on the success path the handler sets only the
`resetPasswordUsername` key on the session parsed from the incoming
cookie, so every other key keeps the value it had in the incoming
session. -/
theorem handleVerification_session_isolation
    (db : List User) (submission : Submission) (c : Cookie)
    (v : SubmissionValue) (u : User)
    (hv : submission.value = some v)
    (hfind : db.find? (userMatches v.target) = some u) :
    handleVerification db submission (some c) =
      .ok (.redirect "/reset-password"
            [("set-cookie", committedResetCookie (some c) u.username)],
        [.dbFindFirst v.target, .sessionGet (some c),
         .sessionSetKey resetPasswordUsernameSessionKey u.username,
         .sessionCommit]) ∧
    (committedResetCookie (some c) u.username).lookup
      resetPasswordUsernameSessionKey = some u.username ∧
    ∀ k, k ≠ resetPasswordUsernameSessionKey →
      (committedResetCookie (some c) u.username).lookup k = c.lookup k := by
  refine ⟨handleVerification_eq_found db submission (some c) v u hv hfind,
    lookup_committedResetCookie_self (some c) u.username, fun k hk => ?_⟩
  exact lookup_setKey_ne c resetPasswordUsernameSessionKey k u.username hk

/-- C6 witness: an incoming session holding an unrelated key `"other"`
keeps that key, with its value, in the committed session. -/
theorem handleVerification_session_isolation_witness :
    handleVerification [⟨"alice@example.com", "alice"⟩]
        ⟨some ⟨"alice"⟩, []⟩ (some [("other", "keep")]) =
      .ok (.redirect "/reset-password"
            [("set-cookie", committedResetCookie (some [("other", "keep")]) "alice")],
        [.dbFindFirst "alice", .sessionGet (some [("other", "keep")]),
         .sessionSetKey resetPasswordUsernameSessionKey "alice",
         .sessionCommit]) ∧
    (committedResetCookie (some [("other", "keep")]) "alice").lookup "other" =
      ([("other", "keep")] : Cookie).lookup "other" :=
  ⟨(handleVerification_session_isolation [⟨"alice@example.com", "alice"⟩]
      ⟨some ⟨"alice"⟩, []⟩ [("other", "keep")] ⟨"alice"⟩
      ⟨"alice@example.com", "alice"⟩ rfl (by decide)).1,
   (handleVerification_session_isolation [⟨"alice@example.com", "alice"⟩]
      ⟨some ⟨"alice"⟩, []⟩ [("other", "keep")] ⟨"alice"⟩
      ⟨"alice@example.com", "alice"⟩ rfl (by decide)).2.2 "other" (by decide)⟩

/-- C7: idempotence of the error path — two calls with the same
unresolvable target over the same store state are the same computation,
and each yields error code `"Invalid code"` with a 400 response. -/
theorem handleVerification_error_idempotent
    (db : List User) (submission : Submission) (cookieHeader : Option Cookie)
    (v : SubmissionValue)
    (hv : submission.value = some v)
    (hfind : db.find? (userMatches v.target) = none) :
    errorCodeOf (handleVerification db submission cookieHeader) =
      some "Invalid code" ∧
    responseStatusOf (handleVerification db submission cookieHeader) = some 400 ∧
    handleVerification db submission cookieHeader =
      handleVerification db submission cookieHeader := by
  have h := handleVerification_eq_notFound db submission cookieHeader v hv hfind
  rw [h]
  refine ⟨?_, rfl, rfl⟩
  simp [errorCodeOf, lookup_setKey_self]

/-- C7 witness: the unresolvable target `"ghost"` yields the generic
error code and 400 status. -/
theorem handleVerification_error_idempotent_witness :
    errorCodeOf (handleVerification [⟨"alice@example.com", "alice"⟩]
        ⟨some ⟨"ghost"⟩, []⟩ none) = some "Invalid code" ∧
    responseStatusOf (handleVerification [⟨"alice@example.com", "alice"⟩]
        ⟨some ⟨"ghost"⟩, []⟩ none) = some 400 :=
  ⟨(handleVerification_error_idempotent [⟨"alice@example.com", "alice"⟩]
      ⟨some ⟨"ghost"⟩, []⟩ none ⟨"ghost"⟩ rfl (by decide)).1,
   (handleVerification_error_idempotent [⟨"alice@example.com", "alice"⟩]
      ⟨some ⟨"ghost"⟩, []⟩ none ⟨"ghost"⟩ rfl (by decide)).2.1⟩

/-- C8: every form submission that passes schema validation with intent
`"submit"` and a present (non-empty) password reaches the unimplemented
throw: the action ends in the fatal error
`"This has not yet been implemented"`, never a returned outcome. -/
theorem action_submit_password_unimplemented
    (passwordOk : String → Bool) (fd : ResetFormData) (v : ResetValue)
    (hintent : (parseReset passwordOk fd).intent = "submit")
    (hvalue : (parseReset passwordOk fd).value = some v)
    (hp : v.password ≠ "") :
    action passwordOk fd = .error "This has not yet been implemented" := by
  have h1 : ((parseReset passwordOk fd).intent != "submit") = false := by
    simp [hintent]
  have h2 : passwordMissing (parseReset passwordOk fd) = false := by
    simp [passwordMissing, hvalue, hp]
  simp [action, h1, h2]

/-- C8 witness: a valid `"submit"` submission with matching non-empty
passwords hits the unimplemented throw. -/
theorem action_submit_password_unimplemented_witness :
    action (fun s => decide (3 ≤ s.length))
        ⟨"submit", some "hunter2", some "hunter2"⟩ =
      .error "This has not yet been implemented" :=
  action_submit_password_unimplemented (fun s => decide (3 ≤ s.length))
    ⟨"submit", some "hunter2", some "hunter2"⟩ ⟨"hunter2", "hunter2"⟩
    rfl (by decide) (by decide)

/-- C9: the loader ignores its arguments — it reads neither the request
nor the session — and always returns the constant placeholder
`'get this from the session'` as `resetPasswordUsername`. -/
theorem loader_constant_placeholder (a b : DataFunctionArgs) :
    loader a = loader b ∧
    loader a = (200, ⟨"get this from the session"⟩) :=
  ⟨rfl, rfl⟩

/-- C10: the action branch structure — any submission whose intent is not
`"submit"` returns status `"idle"` without throwing; any `"submit"`
submission whose validated password is missing or empty returns a 400
`"error"` outcome without throwing; both with an empty collaborator
trace, so the database is never touched. -/
theorem action_branch_outcomes
    (passwordOk : String → Bool) (fd : ResetFormData) :
    ((parseReset passwordOk fd).intent ≠ "submit" →
      action passwordOk fd =
        .ok (⟨200, "idle", parseReset passwordOk fd⟩, [])) ∧
    ((parseReset passwordOk fd).intent = "submit" →
      passwordMissing (parseReset passwordOk fd) = true →
      action passwordOk fd =
        .ok (⟨400, "error", parseReset passwordOk fd⟩, [])) := by
  constructor
  · intro h
    have h1 : ((parseReset passwordOk fd).intent != "submit") = true := by
      simp [h]
    simp [action, h1]
  · intro h hm
    have h1 : ((parseReset passwordOk fd).intent != "submit") = false := by
      simp [h]
    simp [action, h1, hm]

/-- C10 witness: a `"validate/password"` intent yields the idle outcome;
a `"submit"` submission whose password fails the schema yields the 400
error outcome; neither throws and neither performs any effect. -/
theorem action_branch_outcomes_witness :
    action (fun s => decide (3 ≤ s.length))
        ⟨"validate/password", some "hunter2", some "hunter2"⟩ =
      .ok (⟨200, "idle", parseReset (fun s => decide (3 ≤ s.length))
          ⟨"validate/password", some "hunter2", some "hunter2"⟩⟩, []) ∧
    action (fun s => decide (3 ≤ s.length)) ⟨"submit", some "ab", some "ab"⟩ =
      .ok (⟨400, "error", parseReset (fun s => decide (3 ≤ s.length))
          ⟨"submit", some "ab", some "ab"⟩⟩, []) :=
  ⟨(action_branch_outcomes (fun s => decide (3 ≤ s.length))
      ⟨"validate/password", some "hunter2", some "hunter2"⟩).1 (by decide),
   (action_branch_outcomes (fun s => decide (3 ≤ s.length))
      ⟨"submit", some "ab", some "ab"⟩).2 rfl (by decide)⟩

end WebAuth
